import Mathlib

/-
Verification of the pcs cluster-property validation engine and the CLI
report preprocessor against the repository specification.

The validators (pcs/lib/cluster_property.py) are not shipped in this
source sample; they are modelled from the specification, with every point
that the in-repo test suite (pcs_test/tier0/lib/test_cluster_property.py)
pins down taken from those tests.  The diagnostic-enrichment preprocessor
(pcs/cli/reports/preprocessor.py) is shipped and is embedded directly.
-/

/-- Severity of a report item: ERROR or WARNING. -/
inductive Severity
  | error
  | warning
  deriving DecidableEq

/-- The single force code used by the cluster-property validators
(reports.codes.FORCE). -/
def FORCE : String := "FORCE"

/-- Allowed-values description attached to an INVALID_OPTION_VALUE report:
either a free-text description or an enumerated list (select type). -/
inductive AllowedValues
  | text (desc : String)
  | values (vals : List String)
  deriving DecidableEq

/-- Report messages produced by the cluster-property validators, one
constructor per report code, carrying the payload fields that the test
fixtures compare. -/
inductive Msg
  | invalidOptions (optionNames : List String) (allowed : List String)
      (optionType : String) (allowedPatterns : List String)
  | invalidOptionValue (optionName : String) (optionValue : String)
      (allowedValues : AllowedValues) (cannotBeEmpty : Bool)
      (forbiddenCharacters : Option String)
  | stonithWatchdogTimeoutCannotBeSet (reason : String)
  | stonithWatchdogTimeoutCannotBeUnset (reason : String)
  | stonithWatchdogTimeoutTooSmall (clusterSbdWatchdogTimeout : Nat)
      (enteredWatchdogTimeout : String)
  | addRemoveItemsNotSpecified (containerType : String) (itemType : String)
      (containerId : String)
  | addRemoveCannotRemoveItemsNotInTheContainer (containerType : String)
      (itemType : String) (containerId : String) (itemList : List String)
  | cannotDoActionWithForbiddenOptions (action : String)
      (specifiedOptions : List String) (forbiddenOptions : List String)
      (optionType : String)
  deriving DecidableEq

/-- The report code string of a message (reports.codes.*). -/
def Msg.code : Msg → String
  | .invalidOptions .. => "INVALID_OPTIONS"
  | .invalidOptionValue .. => "INVALID_OPTION_VALUE"
  | .stonithWatchdogTimeoutCannotBeSet .. =>
      "STONITH_WATCHDOG_TIMEOUT_CANNOT_BE_SET"
  | .stonithWatchdogTimeoutCannotBeUnset .. =>
      "STONITH_WATCHDOG_TIMEOUT_CANNOT_BE_UNSET"
  | .stonithWatchdogTimeoutTooSmall .. =>
      "STONITH_WATCHDOG_TIMEOUT_TOO_SMALL"
  | .addRemoveItemsNotSpecified .. => "ADD_REMOVE_ITEMS_NOT_SPECIFIED"
  | .addRemoveCannotRemoveItemsNotInTheContainer .. =>
      "ADD_REMOVE_CANNOT_REMOVE_ITEMS_NOT_IN_THE_CONTAINER"
  | .cannotDoActionWithForbiddenOptions .. =>
      "CANNOT_DO_ACTION_WITH_FORBIDDEN_OPTIONS"

/-- A report item: severity, optional force code, message with payload.
Mirrors the (severity, code, payload, force_code) tuples compared by
assert_report_item_list_equal in the test suite. -/
structure ReportItem where
  severity : Severity
  forceCode : Option String
  msg : Msg
  deriving DecidableEq

/-- Modelled from the spec: reports.item.get_severity from the missing
report-model module.  Severity assigned to a forceable report: forced
calls produce a WARNING with no force code, unforced calls an ERROR
carrying the force code. -/
def get_severity (forceCode : String) (force : Bool) : Severity × Option String :=
  if force then (Severity.warning, none) else (Severity.error, some forceCode)

/-- Build a report item from a (severity, force code) pair and a message. -/
def mkReport (sev : Severity × Option String) (m : Msg) : ReportItem :=
  ⟨sev.1, sev.2, m⟩

/-- The per-item transformation of warning_reports in
pcs_test/tier0/lib/test_cluster_property.py: an item with a force code
becomes a WARNING with the force code cleared; other items are unchanged. -/
def warning_report (r : ReportItem) : ReportItem :=
  if r.forceCode.isSome then
    { r with severity := Severity.warning, forceCode := none }
  else r

/-- Lexicographic comparison of character lists by code point, the order
used by the sorted builtin of the implementation language. -/
def charListLe : List Char → List Char → Bool
  | [], _ => true
  | _ :: _, [] => false
  | a :: as, b :: bs =>
      if a.val < b.val then true
      else if a.val = b.val then charListLe as bs
      else false

/-- String comparison by code points. -/
def strLe (a b : String) : Bool := charListLe a.data b.data

/-- Insert a string into a sorted list, keeping it sorted. -/
def insertSorted (x : String) : List String → List String
  | [] => [x]
  | y :: ys => if strLe x y then x :: y :: ys else y :: insertSorted x ys

/-- Modelled from the spec: the sorted builtin, as applied by the missing
validate module to option-name lists before putting them into reports. -/
def pySorted (l : List String) : List String := l.foldr insertSorted []

/-- Join a list of strings with a separator (str.join). -/
def join_with (sep : String) : List String → String
  | [] => ""
  | [x] => x
  | x :: xs => x ++ sep ++ join_with sep xs

/-- A single-quote character as a string. -/
def SQ : String := "\x27"

/-- Modelled from the spec: format_list from the missing
pcs/common/str_tools.py — each item quoted, the list sorted and joined
with a comma separator. -/
def format_list (items : List String) : String :=
  join_with ", " (pySorted (items.map (fun s => SQ ++ s ++ SQ)))

/-- Digit-sequence test: non-empty and all decimal digits. -/
def isDigits (l : List Char) : Bool := !l.isEmpty && l.all (·.isDigit)

/-- Numeric value of a digit sequence. -/
def digitsToNat (l : List Char) : Nat :=
  l.foldl (fun acc c => acc * 10 + (c.val.toNat - 48)) 0

/-- Modelled from the spec: the boolean grammar of the missing type
validators — case-insensitive true, false, 1, 0, yes, no, on, off. -/
def is_pcmk_boolean (v : String) : Bool :=
  ["true", "false", "1", "0", "yes", "no", "on", "off"].contains v.toLower

/-- Modelled from the spec: the integer grammar of the missing type
validators — an optionally-signed decimal integer or the literal tokens
INFINITY and -INFINITY. -/
def is_pcmk_integer (v : String) : Bool :=
  v = "INFINITY" || v = "-INFINITY" ||
    (match v.data with
     | '+' :: rest => isDigits rest
     | '-' :: rest => isDigits rest
     | l => isDigits l)

/-- Modelled from the spec: the percentage grammar of the missing type
validators — a non-negative integer immediately followed by a percent
sign. -/
def is_pcmk_percentage (v : String) : Bool :=
  match v.data.getLast? with
  | some '%' => isDigits v.data.dropLast
  | _ => false

/-- Seconds multiplier of a time-unit suffix, none for an unknown
suffix. -/
def timeout_unit_multiplier : String → Option Nat
  | "" => some 1
  | "s" => some 1
  | "sec" => some 1
  | "m" => some 60
  | "min" => some 60
  | "h" => some 3600
  | "hr" => some 3600
  | _ => none

/-- Modelled from the spec: timeout_to_seconds from the missing
pcs/common/tools.py — a non-negative integer optionally followed by a
duration-unit suffix; none when the value is not a valid time interval. -/
def timeout_to_seconds (v : String) : Option Nat :=
  let ds := v.data.takeWhile (·.isDigit)
  let suffix := v.data.dropWhile (·.isDigit)
  if ds.isEmpty then none
  else
    match timeout_unit_multiplier (String.mk suffix) with
    | some mult => some (digitsToNat ds * mult)
    | none => none

example : timeout_to_seconds "5min" = some 300 := by decide
example : timeout_to_seconds "10x" = none := by decide
example : timeout_to_seconds "0" = some 0 := by decide
example : timeout_to_seconds "" = none := by decide
example : is_pcmk_percentage "20%" = true := by decide
example : is_pcmk_percentage "20" = false := by decide
example : is_pcmk_integer "3.14" = false := by decide
example : is_pcmk_integer "-7" = true := by decide
example : pySorted ["time_param", "stonith-watchdog-timeout", "bool_param"] =
    ["bool_param", "stonith-watchdog-timeout", "time_param"] := by decide

/-- One parameter declared by a resource agent, reduced to the fields the
validators consult (pcs/lib/resource_agent/types.py ResourceAgentParameter). -/
structure ResourceAgentParameter where
  name : String
  type : String
  default : Option String
  enum_values : Option (List String)
  deriving DecidableEq

/-- Resource agent metadata: its ordered parameter list. -/
structure ResourceAgentMetadata where
  parameters : List ResourceAgentParameter
  deriving DecidableEq

/-- A resource agent facade exposing its metadata. -/
structure ResourceAgentFacade where
  metadata : ResourceAgentMetadata
  deriving DecidableEq

/-- Update a key in an insertion-ordered dictionary, or append it. -/
def dict_update (d : List (String × ResourceAgentParameter)) (k : String)
    (v : ResourceAgentParameter) : List (String × ResourceAgentParameter) :=
  if d.any (fun p => p.1 = k) then
    d.map (fun p => if p.1 = k then (k, v) else p)
  else d ++ [(k, v)]

/-- Look a key up in an insertion-ordered dictionary. -/
def dict_get? (d : List (String × ResourceAgentParameter)) (k : String) :
    Option ResourceAgentParameter :=
  (d.find? (fun p => p.1 = k)).map (fun p => p.2)

/-- Modelled from the spec: the parameter-schema merger of the missing
pcs/lib/cluster_property.py — a dictionary from parameter name to its
definition folded over all facade parameter lists, later entries
overwriting earlier ones, first-insertion key order. -/
def possible_properties_dict (facades : List ResourceAgentFacade) :
    List (String × ResourceAgentParameter) :=
  ((facades.map (fun f => f.metadata.parameters)).foldr (· ++ ·) []).foldl
    (fun d p => dict_update d p.name p) []

/-- The forbidden, machine-maintained cluster properties
(FORBIDDEN_OPTIONS_LIST in the test suite). -/
def FORBIDDEN_OPTIONS_LIST : List String :=
  ["cluster-infrastructure", "cluster-name", "dc-version", "have-watchdog"]

/-- Modelled from the spec: the allowed-names list of the missing
validator.  As pinned by the ALLOWED_PROPERTIES fixture of the test
suite, the forbidden properties are removed from the schema keys (the
spec text §4.2 instead keeps them; see claim C5). -/
def allowed_properties (facades : List ResourceAgentFacade) : List String :=
  ((possible_properties_dict facades).map (fun p => p.1)).filter
    (fun n => !FORBIDDEN_OPTIONS_LIST.contains n)

/-- Modelled from the spec: the NamesIn validator of the missing validate
module, §4.4 step 2 — one forceable INVALID_OPTIONS report for proposed
names that are neither allowed nor banned, and one non-forceable
INVALID_OPTIONS report for proposed names in the banned list, each
omitted when its name subset is empty. -/
def names_in_validate (allowedList bannedList : List String)
    (optionType : String) (sev : Severity × Option String)
    (names : List String) : List ReportItem :=
  let banned_names := names.filter (fun n => bannedList.contains n)
  let invalid_names := names.filter
    (fun n => !allowedList.contains n && !bannedList.contains n)
  (if invalid_names.isEmpty then []
   else [mkReport sev
          (Msg.invalidOptions (pySorted invalid_names) (pySorted allowedList)
            optionType [])])
  ++
  (if banned_names.isEmpty then []
   else [⟨Severity.error, none,
          Msg.invalidOptions (pySorted banned_names) (pySorted allowedList)
            optionType []⟩])

/-- Modelled from the spec: the per-type value check of the missing
validator, §4.3 — boolean, integer, percentage, select and time values
produce one forceable INVALID_OPTION_VALUE report on failure; any other
declared type (as pinned by the bool_param fixture of the test suite) is
not value-checked. -/
def validate_property_value (param : ResourceAgentParameter)
    (name value : String) (sev : Severity × Option String) : List ReportItem :=
  match param.type with
  | "boolean" =>
      if is_pcmk_boolean value then []
      else [mkReport sev (Msg.invalidOptionValue name value
              (AllowedValues.text "a pacemaker boolean value: \x27true\x27 or \x27false\x27")
              false none)]
  | "integer" =>
      if is_pcmk_integer value then []
      else [mkReport sev (Msg.invalidOptionValue name value
              (AllowedValues.text "an integer or INFINITY or -INFINITY")
              false none)]
  | "percentage" =>
      if is_pcmk_percentage value then []
      else [mkReport sev (Msg.invalidOptionValue name value
              (AllowedValues.text
                "a non-negative integer followed by \x27%\x27 (e.g. 0%, 50%, 200%, ...)")
              false none)]
  | "select" =>
      if (param.enum_values.getD []).contains value then []
      else [mkReport sev (Msg.invalidOptionValue name value
              (AllowedValues.values (param.enum_values.getD []))
              false none)]
  | "time" =>
      if (timeout_to_seconds value).isSome then []
      else [mkReport sev (Msg.invalidOptionValue name value
              (AllowedValues.text "time interval (e.g. 1, 2s, 3m, 4h, ...)")
              false none)]
  | _ => []

/-- Live watchdog-subsystem state, the values returned by the three
service-manager queries the test suite mocks: sbd.is_sbd_enabled,
sbd.get_local_sbd_device_list and sbd._get_local_sbd_watchdog_timeout. -/
structure WatchdogState where
  is_sbd_enabled : Bool
  local_sbd_device_list : List String
  local_sbd_watchdog_timeout : Nat
  deriving DecidableEq

/-- Modelled from the spec: best-effort parse of the proposed
stonith-watchdog-timeout target, §4.6 — the empty value counts as unset
(zero), a valid time interval is its value in seconds, and a non-numeric
value falls to a negative sentinel so that it is treated as too small. -/
def swt_target_value (value : String) : Int :=
  if value = "" then 0
  else
    match timeout_to_seconds value with
    | some n => Int.ofNat n
    | none => -1

/-- Modelled from the spec: sbd.validate_stonith_watchdog_timeout of the
missing pcs/lib/sbd.py — the sbd-enabled rows of the §4.6 table. -/
def validate_stonith_watchdog_timeout (st : WatchdogState)
    (origValue : String) (v : Int) (force : Bool) : List ReportItem :=
  if st.local_sbd_device_list.isEmpty then
    if v = 0 then
      [mkReport (get_severity FORCE force)
        (Msg.stonithWatchdogTimeoutCannotBeUnset "sbd_set_up_without_devices")]
    else if v < Int.ofNat st.local_sbd_watchdog_timeout then
      [mkReport (get_severity FORCE force)
        (Msg.stonithWatchdogTimeoutTooSmall st.local_sbd_watchdog_timeout
          origValue)]
    else []
  else
    if v = 0 then []
    else
      [mkReport (get_severity FORCE force)
        (Msg.stonithWatchdogTimeoutCannotBeSet "sbd_set_up_with_devices")]

/-- Modelled from the spec: _validate_stonith_watchdog_timeout_property of
the missing pcs/lib/cluster_property.py — when sbd is disabled a
non-zero target yields a non-forceable cannot-be-set error (the test
fixture at test_set_stonith_watchdog_timeout_sbd_disabled carries no
force code; the spec table §4.6 instead calls it forceable, see claim
C4); when sbd is enabled the §4.6 enabled rows apply. -/
def _validate_stonith_watchdog_timeout_property (st : WatchdogState)
    (value : String) (force : Bool) : List ReportItem :=
  if st.is_sbd_enabled then
    validate_stonith_watchdog_timeout st value (swt_target_value value) force
  else
    if swt_target_value value = 0 then []
    else
      [⟨Severity.error, none,
        Msg.stonithWatchdogTimeoutCannotBeSet "sbd_not_set_up"⟩]

/-- Value check of one proposed name/value pair: forbidden names, the
stonith-watchdog-timeout property and names absent from the merged
schema are skipped. -/
def validate_value_entry (ppd : List (String × ResourceAgentParameter))
    (sev : Severity × Option String) (nv : String × String) :
    List ReportItem :=
  if nv.1 = "stonith-watchdog-timeout" then []
  else if FORBIDDEN_OPTIONS_LIST.contains nv.1 then []
  else
    match dict_get? ppd nv.1 with
    | some param => validate_property_value param nv.1 nv.2 sev
    | none => []

/-- Per-name value checks over the proposed map in its iteration order. -/
def validate_values (ppd : List (String × ResourceAgentParameter))
    (sev : Severity × Option String) :
    List (String × String) → List ReportItem
  | [] => []
  | nv :: rest => validate_value_entry ppd sev nv ++ validate_values ppd sev rest

/-- Result of one validation call: the ordered report list plus the
number of times the watchdog-state query (sbd.is_sbd_enabled) was
invoked. -/
structure ValidationResult where
  report_list : List ReportItem
  sbd_queries : Nat
  deriving DecidableEq

/-- Modelled from the spec: validate_set_cluster_properties of the missing
pcs/lib/cluster_property.py, §4.4 — name partition against the merged
schema and the forbidden list, per-type value checks, and the
stonith-watchdog-timeout policy invoked (with one watchdog query) only
when that property is proposed. -/
def validate_set_cluster_properties (facades : List ResourceAgentFacade)
    (set_id : String) (st : WatchdogState)
    (new_properties : List (String × String)) (force : Bool) :
    ValidationResult :=
  let _ := set_id
  let ppd := possible_properties_dict facades
  let allowed := allowed_properties facades
  let names := new_properties.map (fun nv => nv.1)
  let names_reports := names_in_validate allowed FORBIDDEN_OPTIONS_LIST
    "cluster property" (get_severity FORCE force) names
  let value_reports := validate_values ppd (get_severity FORCE force)
    new_properties
  let has_swt := names.contains "stonith-watchdog-timeout"
  let swt_value :=
    ((new_properties.find? (fun nv => nv.1 = "stonith-watchdog-timeout")).map
      (fun nv => nv.2)).getD ""
  let swt_reports :=
    if has_swt then
      _validate_stonith_watchdog_timeout_property st swt_value force
    else []
  ⟨names_reports ++ value_reports ++ swt_reports, if has_swt then 1 else 0⟩

/-- Container-type constant of the property-set add/remove reports. -/
def ADD_REMOVE_CONTAINER_TYPE_PROPERTY_SET : String := "property_set"

/-- Item-type constant of the property add/remove reports. -/
def ADD_REMOVE_ITEM_TYPE_PROPERTY : String := "property"

/-- Modelled from the spec: validate_remove_cluster_properties of the
missing pcs/lib/cluster_property.py, §4.5 — empty-list report,
not-configured report, non-forceable forbidden-options report, and the
stonith-watchdog-timeout policy invoked with an unset target (with one
watchdog query) only when that property is both requested and
configured. -/
def validate_remove_cluster_properties (configured : List String)
    (set_id : String) (st : WatchdogState) (to_remove : List String)
    (force : Bool) : ValidationResult :=
  let empty_report :=
    if to_remove.isEmpty then
      [mkReport (get_severity FORCE force)
        (Msg.addRemoveItemsNotSpecified ADD_REMOVE_CONTAINER_TYPE_PROPERTY_SET
          ADD_REMOVE_ITEM_TYPE_PROPERTY set_id)]
    else []
  let not_configured := to_remove.filter (fun n => !configured.contains n)
  let nc_report :=
    if not_configured.isEmpty then []
    else
      [mkReport (get_severity FORCE force)
        (Msg.addRemoveCannotRemoveItemsNotInTheContainer
          ADD_REMOVE_CONTAINER_TYPE_PROPERTY_SET ADD_REMOVE_ITEM_TYPE_PROPERTY
          set_id (pySorted not_configured))]
  let forbidden_requested :=
    to_remove.filter (fun n => FORBIDDEN_OPTIONS_LIST.contains n)
  let fr_report :=
    if forbidden_requested.isEmpty then []
    else
      [⟨Severity.error, none,
        Msg.cannotDoActionWithForbiddenOptions "remove"
          (pySorted forbidden_requested) FORBIDDEN_OPTIONS_LIST
          "cluster property"⟩]
  let has_swt := to_remove.contains "stonith-watchdog-timeout" &&
    configured.contains "stonith-watchdog-timeout"
  let swt_reports :=
    if has_swt then _validate_stonith_watchdog_timeout_property st "" force
    else []
  ⟨empty_report ++ nc_report ++ fr_report ++ swt_reports,
   if has_swt then 1 else 0⟩

/-- One fixture parameter (the _fixture_parameter helper of the test
suite, reduced to validation-relevant fields). -/
def fixture_parameter (name ptype dflt : String)
    (enum : Option (List String)) : ResourceAgentParameter :=
  ⟨name, ptype, some dflt, enum⟩

/-- The PARAMETER_DEFINITIONS fixture of the test suite. -/
def FIXTURE_PARAMETER_LIST : List ResourceAgentParameter :=
  [fixture_parameter "bool_param" "bool" "false" none,
   fixture_parameter "integer_param" "integer" "9" none,
   fixture_parameter "percentage_param" "percentage" "80%" none,
   fixture_parameter "select_param" "select" "s1" (some ["s1", "s2", "s3"]),
   fixture_parameter "time_param" "time" "30s" none,
   fixture_parameter "stonith-watchdog-timeout" "time" "0" none,
   fixture_parameter "cluster-infrastructure" "string" "corosync" none,
   fixture_parameter "cluster-name" "string" "(null)" none,
   fixture_parameter "dc-version" "string" "none" none,
   fixture_parameter "have-watchdog" "boolean" "false" none]

/-- The two mocked facades of the test setUp, each carrying half of the
fixture parameter list. -/
def fixture_facade_list : List ResourceAgentFacade :=
  [⟨⟨FIXTURE_PARAMETER_LIST.take 5⟩⟩, ⟨⟨FIXTURE_PARAMETER_LIST.drop 5⟩⟩]

/-- The ALLOWED_PROPERTIES fixture of the test suite. -/
def ALLOWED_PROPERTIES : List String :=
  ["bool_param", "integer_param", "percentage_param", "select_param",
   "stonith-watchdog-timeout", "time_param"]

/-- The watchdog state assembled by assert_validate_set from its mocked
queries. -/
def fixture_watchdog_state (sbd_enabled sbd_devices : Bool) : WatchdogState :=
  ⟨sbd_enabled, if sbd_devices then ["devices"] else [], 10⟩

example :
    pySorted (allowed_properties fixture_facade_list) = ALLOWED_PROPERTIES := by
  decide

example :
    (validate_set_cluster_properties fixture_facade_list "property-set-id"
      (fixture_watchdog_state false false)
      [("bool_param", "true"), ("integer_param", "10"),
       ("percentage_param", "20%"), ("select_param", "s3"),
       ("time_param", "5min")] false).report_list = [] := by
  decide

example :
    (validate_set_cluster_properties fixture_facade_list "property-set-id"
      (fixture_watchdog_state false false)
      [("bool_param", "Falsch"), ("integer_param", "3.14"),
       ("percentage_param", "20"), ("select_param", "not-in-enum-values"),
       ("time_param", "10x"), ("unknown", "value"),
       ("have-watchdog", "100")] false).report_list =
    [⟨Severity.error, some FORCE,
      Msg.invalidOptions ["unknown"] ALLOWED_PROPERTIES "cluster property" []⟩,
     ⟨Severity.error, none,
      Msg.invalidOptions ["have-watchdog"] ALLOWED_PROPERTIES
        "cluster property" []⟩,
     ⟨Severity.error, some FORCE,
      Msg.invalidOptionValue "integer_param" "3.14"
        (AllowedValues.text "an integer or INFINITY or -INFINITY")
        false none⟩,
     ⟨Severity.error, some FORCE,
      Msg.invalidOptionValue "percentage_param" "20"
        (AllowedValues.text
          "a non-negative integer followed by \x27%\x27 (e.g. 0%, 50%, 200%, ...)")
        false none⟩,
     ⟨Severity.error, some FORCE,
      Msg.invalidOptionValue "select_param" "not-in-enum-values"
        (AllowedValues.values ["s1", "s2", "s3"]) false none⟩,
     ⟨Severity.error, some FORCE,
      Msg.invalidOptionValue "time_param" "10x"
        (AllowedValues.text "time interval (e.g. 1, 2s, 3m, 4h, ...)")
        false none⟩] := by
  decide

example :
    (validate_set_cluster_properties fixture_facade_list "property-set-id"
      (fixture_watchdog_state true false)
      [("stonith-watchdog-timeout", "9")] false).report_list =
    [⟨Severity.error, some FORCE,
      Msg.stonithWatchdogTimeoutTooSmall 10 "9"⟩] := by
  decide

example :
    (validate_set_cluster_properties fixture_facade_list "property-set-id"
      (fixture_watchdog_state true false)
      [("stonith-watchdog-timeout", "15")] false).report_list = [] := by
  decide

example :
    (validate_set_cluster_properties fixture_facade_list "property-set-id"
      (fixture_watchdog_state true true)
      [("stonith-watchdog-timeout", "15")] false).report_list =
    [⟨Severity.error, some FORCE,
      Msg.stonithWatchdogTimeoutCannotBeSet "sbd_set_up_with_devices"⟩] := by
  decide

example :
    (validate_remove_cluster_properties
      ["a", "b", "c", "stonith-watchdog-timeout"] "property-set-id"
      (fixture_watchdog_state false false) [] false).report_list =
    [⟨Severity.error, some FORCE,
      Msg.addRemoveItemsNotSpecified "property_set" "property"
        "property-set-id"⟩] := by
  decide

example :
    (validate_remove_cluster_properties
      ["a", "b", "c", "stonith-watchdog-timeout"] "property-set-id"
      (fixture_watchdog_state false false)
      ["cluster-name", "dc-version", "have-watchdog"] false).report_list =
    [⟨Severity.error, some FORCE,
      Msg.addRemoveCannotRemoveItemsNotInTheContainer "property_set"
        "property" "property-set-id"
        ["cluster-name", "dc-version", "have-watchdog"]⟩,
     ⟨Severity.error, none,
      Msg.cannotDoActionWithForbiddenOptions "remove"
        ["cluster-name", "dc-version", "have-watchdog"]
        FORBIDDEN_OPTIONS_LIST "cluster property"⟩] := by
  decide

example :
    (validate_remove_cluster_properties
      ["a", "b", "c", "stonith-watchdog-timeout"] "property-set-id"
      (fixture_watchdog_state true false)
      ["stonith-watchdog-timeout"] false).report_list =
    [⟨Severity.error, some FORCE,
      Msg.stonithWatchdogTimeoutCannotBeUnset "sbd_set_up_without_devices"⟩]
    := by
  decide

/-- A constraint record as consumed by the preprocessor: its id and the
lines its black-box renderer (plain_constraint_to_text or
set_constraint_to_text with verbose=true) produces for it. -/
structure ConstraintDto where
  constraint_id : String
  rendered : List String
  deriving DecidableEq

/-- CibConstraintsDto: the eight constraint categories, in the order the
preprocessor iterates them. -/
structure CibConstraintsDto where
  location : List ConstraintDto
  location_set : List ConstraintDto
  colocation : List ConstraintDto
  colocation_set : List ConstraintDto
  order : List ConstraintDto
  order_set : List ConstraintDto
  ticket : List ConstraintDto
  ticket_set : List ConstraintDto
  deriving DecidableEq

/-- Report messages seen by the CLI preprocessor. -/
inductive CliReportMsg
  | duplicateConstraintsList
  | duplicateConstraintsExist (constraint_ids : List String)
  | other (code : String)
  deriving DecidableEq

/-- A report item flowing through the CLI preprocessor. -/
structure CliReportItem where
  severity : Severity
  msg : CliReportMsg
  deriving DecidableEq

/-- LibraryError as caught by the preprocessor: optional raw output plus
embedded report items (its args). -/
structure LibraryError where
  output : Option String
  args : List CliReportItem
  deriving DecidableEq

/-- One event written to the side diagnostic channel: a stderr line, or a
non-fatal pass of embedded report items through process_library_reports. -/
inductive StderrEvent
  | line (s : String)
  | libraryReports (items : List CliReportItem) (exit_on_error : Bool)
  deriving DecidableEq

/-- INDENT_STEP of pcs.cli.common.output. -/
def INDENT_STEP : Nat := 2

/-- indent from pcs.common.str_tools, as used by my_print. -/
def indent_lines (lines : List String) : List String :=
  lines.map (fun l => String.mk (List.replicate INDENT_STEP ' ') ++ l)

/-- my_print of the preprocessor: one stderr write of the indented lines
joined by newlines. -/
def my_print (lines : List String) : StderrEvent :=
  StderrEvent.line (join_with "\n" (indent_lines lines))

/-- The prints of one constraint category: every fetched constraint whose
id is in the diagnostic id list, rendered and indented. -/
def category_prints (dtos : List ConstraintDto) (ids : List String) :
    List StderrEvent :=
  (dtos.filter (fun d => ids.contains d.constraint_id)).map
    (fun d => my_print d.rendered)

/-- The stderr events of a successful enrichment: the header line followed
by the eight constraint categories in source order. -/
def print_constraints_dto (dto : CibConstraintsDto) (ids : List String) :
    List StderrEvent :=
  StderrEvent.line "Duplicate constraints:" ::
    (category_prints dto.location ids ++ category_prints dto.location_set ids
      ++ category_prints dto.colocation ids
      ++ category_prints dto.colocation_set ids
      ++ category_prints dto.order ids ++ category_prints dto.order_set ids
      ++ category_prints dto.ticket ids ++ category_prints dto.ticket_set ids)

/-- The stderr events of the except-branch of the preprocessor: the
failure output when truthy, the embedded report items processed with
exit_on_error=False when present, then the fallback line with the
formatted id list. -/
def fetch_failure_events (e : LibraryError) (ids : List String) :
    List StderrEvent :=
  (match e.output with
   | some s => if s = "" then [] else [StderrEvent.line s]
   | none => [])
  ++ (if e.args.isEmpty then [] else [StderrEvent.libraryReports e.args false])
  ++ [StderrEvent.line ("Duplicate constraints: " ++ format_list ids)]

/-- _report_item_preprocessor of
pcs/cli/reports/preprocessor.py, embedded with the external
lib.constraint.get_config call passed in as its (session-fixed) result
and the closed-over constraints_dto cell passed and returned explicitly.
Returns the stderr events, the item passed on (none when dropped), the
new cache cell, and the number of get_config invocations. -/
def report_item_preprocessor (get_config : Except LibraryError CibConstraintsDto)
    (constraints_dto : Option CibConstraintsDto) (report_item : CliReportItem) :
    List StderrEvent × Option CliReportItem × Option CibConstraintsDto × Nat :=
  match report_item.msg with
  | CliReportMsg.duplicateConstraintsList => ([], none, constraints_dto, 0)
  | CliReportMsg.duplicateConstraintsExist ids =>
      match constraints_dto with
      | some dto =>
          (print_constraints_dto dto ids, some report_item, some dto, 0)
      | none =>
          match get_config with
          | Except.ok dto =>
              (print_constraints_dto dto ids, some report_item, some dto, 1)
          | Except.error e =>
              (fetch_failure_events e ids, some report_item, none, 1)
  | CliReportMsg.other _ => ([], some report_item, constraints_dto, 0)

/-- One enrichment session: the preprocessor folded over a stream of
report items, threading the cache cell and accumulating stderr events,
passed-on items and get_config invocation counts. -/
def run_preprocessor (get_config : Except LibraryError CibConstraintsDto) :
    Option CibConstraintsDto → List CliReportItem →
    List StderrEvent × List (Option CliReportItem) × Nat
  | _, [] => ([], [], 0)
  | cache, i :: rest =>
      let step := report_item_preprocessor get_config cache i
      let next := run_preprocessor get_config step.2.2.1 rest
      (step.1 ++ next.1, step.2.1 :: next.2.1, step.2.2.2 + next.2.2)


theorem map_wr_if_forceable (c : Prop) [Decidable c] (m : Msg) :
    (if c then ([] : List ReportItem)
     else [mkReport (get_severity FORCE true) m]) =
    ((if c then ([] : List ReportItem)
      else [mkReport (get_severity FORCE false) m]).map warning_report) := by
  by_cases h : c
  · rw [if_pos h, if_pos h]; rfl
  · rw [if_neg h, if_neg h]; rfl

theorem map_wr_ite_forceable (c : Prop) [Decidable c] (m : Msg) :
    (if c then [mkReport (get_severity FORCE true) m]
     else ([] : List ReportItem)) =
    ((if c then [mkReport (get_severity FORCE false) m]
      else ([] : List ReportItem)).map warning_report) := by
  by_cases h : c
  · rw [if_pos h, if_pos h]; rfl
  · rw [if_neg h, if_neg h]; rfl

theorem map_wr_if_fixed (c : Prop) [Decidable c] (s : Severity) (m : Msg) :
    (if c then ([] : List ReportItem) else [⟨s, none, m⟩]) =
    ((if c then ([] : List ReportItem) else [⟨s, none, m⟩]).map
      warning_report) := by
  by_cases h : c
  · rw [if_pos h]; rfl
  · rw [if_neg h]; rfl

theorem names_in_validate_force (allowed banned : List String) (t : String)
    (names : List String) :
    names_in_validate allowed banned t (get_severity FORCE true) names =
    (names_in_validate allowed banned t (get_severity FORCE false)
      names).map warning_report := by
  simp only [names_in_validate, List.map_append]
  congr 1
  · exact map_wr_if_forceable _ _
  · exact map_wr_if_fixed _ _ _

theorem validate_property_value_force (param : ResourceAgentParameter)
    (n v : String) :
    validate_property_value param n v (get_severity FORCE true) =
    (validate_property_value param n v (get_severity FORCE false)).map
      warning_report := by
  unfold validate_property_value
  split <;> first
    | rfl
    | (split <;> rfl)

theorem validate_value_entry_force (ppd : List (String × ResourceAgentParameter))
    (nv : String × String) :
    validate_value_entry ppd (get_severity FORCE true) nv =
    (validate_value_entry ppd (get_severity FORCE false) nv).map
      warning_report := by
  simp only [validate_value_entry]
  by_cases h1 : nv.1 = "stonith-watchdog-timeout"
  · rw [if_pos h1, if_pos h1]; rfl
  · rw [if_neg h1, if_neg h1]
    by_cases h2 : FORBIDDEN_OPTIONS_LIST.contains nv.1 = true
    · rw [if_pos h2, if_pos h2]; rfl
    · rw [if_neg h2, if_neg h2]
      cases hd : dict_get? ppd nv.1 with
      | none => simp only [hd]; rfl
      | some param => simp only [hd]; exact validate_property_value_force _ _ _

theorem validate_values_force (ppd : List (String × ResourceAgentParameter))
    (props : List (String × String)) :
    validate_values ppd (get_severity FORCE true) props =
    (validate_values ppd (get_severity FORCE false) props).map
      warning_report := by
  induction props with
  | nil => rfl
  | cons nv rest ih =>
      simp only [validate_values, List.map_append]
      rw [ih, validate_value_entry_force]

theorem swt_policy_force (st : WatchdogState) (value : String) :
    _validate_stonith_watchdog_timeout_property st value true =
    (_validate_stonith_watchdog_timeout_property st value false).map
      warning_report := by
  simp only [_validate_stonith_watchdog_timeout_property,
    validate_stonith_watchdog_timeout]
  by_cases he : st.is_sbd_enabled = true
  · rw [if_pos he, if_pos he]
    by_cases hd : st.local_sbd_device_list.isEmpty = true
    · rw [if_pos hd, if_pos hd]
      by_cases hz : swt_target_value value = 0
      · rw [if_pos hz, if_pos hz]; rfl
      · rw [if_neg hz, if_neg hz]
        by_cases hl :
            swt_target_value value < Int.ofNat st.local_sbd_watchdog_timeout
        · rw [if_pos hl, if_pos hl]; rfl
        · rw [if_neg hl, if_neg hl]; rfl
    · rw [if_neg hd, if_neg hd]
      by_cases hz : swt_target_value value = 0
      · rw [if_pos hz, if_pos hz]; rfl
      · rw [if_neg hz, if_neg hz]; rfl
  · rw [if_neg he, if_neg he]
    by_cases hz : swt_target_value value = 0
    · rw [if_pos hz]; rfl
    · rw [if_neg hz]; rfl

/-- C1: for every input, a validation call with force=true returns exactly
the force=false report sequence with every item carrying a force code
rewritten from Error to Warning (force code cleared, code and payload
kept), items without a force code and pre-existing warnings unchanged;
this holds for both the set validator and the remove validator, and the
rewrite is the only severity change. -/
theorem C1_force_is_late_severity_rewrite :
    ∀ (facades : List ResourceAgentFacade) (set_id : String)
      (st : WatchdogState) (props : List (String × String))
      (configured to_remove : List String),
    (validate_set_cluster_properties facades set_id st props
        true).report_list =
      ((validate_set_cluster_properties facades set_id st props
        false).report_list).map warning_report
    ∧ (validate_remove_cluster_properties configured set_id st to_remove
        true).report_list =
      ((validate_remove_cluster_properties configured set_id st to_remove
        false).report_list).map warning_report := by
  intro facades set_id st props configured to_remove
  refine ⟨?_, ?_⟩
  · simp only [validate_set_cluster_properties, List.map_append]
    rw [names_in_validate_force, validate_values_force]
    congr 1
    by_cases hs :
        (props.map (fun nv => nv.1)).contains "stonith-watchdog-timeout" = true
    · rw [if_pos hs, if_pos hs]; exact swt_policy_force _ _
    · rw [if_neg hs, if_neg hs]; rfl
  · simp only [validate_remove_cluster_properties, List.map_append]
    congr 1
    · congr 1
      · congr 1
        · exact map_wr_ite_forceable _ _
        · exact map_wr_if_forceable _ _
      · exact map_wr_if_fixed _ _ _
    · by_cases hs : (to_remove.contains "stonith-watchdog-timeout" &&
          configured.contains "stonith-watchdog-timeout") = true
      · rw [if_pos hs, if_pos hs]; exact swt_policy_force _ _
      · rw [if_neg hs, if_neg hs]; rfl

/-- C8: the watchdog-state query count of a validation call is at most
one, and is exactly one precisely when stonith-watchdog-timeout is among
the proposed names (set validation) or among the names to remove and
currently configured (remove validation); otherwise the querier is never
invoked. -/
theorem C8_watchdog_query_at_most_once :
    ∀ (facades : List ResourceAgentFacade) (set_id : String)
      (st : WatchdogState) (props : List (String × String))
      (configured to_remove : List String) (force : Bool),
    (validate_set_cluster_properties facades set_id st props
        force).sbd_queries ≤ 1
    ∧ ((validate_set_cluster_properties facades set_id st props
        force).sbd_queries = 1 ↔
        "stonith-watchdog-timeout" ∈ props.map (fun nv => nv.1))
    ∧ (validate_remove_cluster_properties configured set_id st to_remove
        force).sbd_queries ≤ 1
    ∧ ((validate_remove_cluster_properties configured set_id st to_remove
        force).sbd_queries = 1 ↔
        ("stonith-watchdog-timeout" ∈ to_remove ∧
          "stonith-watchdog-timeout" ∈ configured)) := by
  intro facades set_id st props configured to_remove force
  refine ⟨?_, ?_, ?_, ?_⟩
  · simp only [validate_set_cluster_properties]
    split <;> simp
  · simp only [validate_set_cluster_properties]
    by_cases h : "stonith-watchdog-timeout" ∈ props.map (fun nv => nv.1)
    · have hb : (props.map (fun nv => nv.1)).contains
          "stonith-watchdog-timeout" = true := by simpa using h
      rw [if_pos hb]; simp [h]
    · have hb : ¬ ((props.map (fun nv => nv.1)).contains
          "stonith-watchdog-timeout" = true) := by simpa using h
      rw [if_neg hb]; simp [h]
  · simp only [validate_remove_cluster_properties]
    split <;> simp
  · simp only [validate_remove_cluster_properties]
    by_cases h : "stonith-watchdog-timeout" ∈ to_remove ∧
        "stonith-watchdog-timeout" ∈ configured
    · have hb : (to_remove.contains "stonith-watchdog-timeout" &&
          configured.contains "stonith-watchdog-timeout") = true := by
        simp [h.1, h.2]
      rw [if_pos hb]; simp [h]
    · have hb : ¬ ((to_remove.contains "stonith-watchdog-timeout" &&
          configured.contains "stonith-watchdog-timeout") = true) := by
        simpa using h
      rw [if_neg hb]; simp [h]

theorem bool_eq_of_iff {a b : Bool} (h : a = true ↔ b = true) : a = b := by
  cases a <;> cases b <;> simp_all

theorem mem_dict_keys_iff (d : List (String × ResourceAgentParameter))
    (n : String) :
    n ∈ d.map (fun p => p.1) ↔ (dict_get? d n).isSome = true := by
  constructor
  · intro h
    rcases List.mem_map.mp h with ⟨p, hp, he⟩
    have hf : (List.find? (fun q => decide (q.1 = n)) d).isSome = true :=
      List.find?_isSome.mpr ⟨p, hp, by simp [he]⟩
    simpa [dict_get?] using hf
  · intro h
    have hf : (List.find? (fun q => decide (q.1 = n)) d).isSome = true := by
      simpa [dict_get?] using h
    rcases List.find?_isSome.mp hf with ⟨p, hp, he⟩
    exact List.mem_map.mpr ⟨p, hp, by simpa using he⟩

theorem allowed_contains_eq (facades : List ResourceAgentFacade) (n : String)
    (hf : ¬ (FORBIDDEN_OPTIONS_LIST.contains n = true)) :
    (allowed_properties facades).contains n =
    (dict_get? (possible_properties_dict facades) n).isSome := by
  apply bool_eq_of_iff
  constructor
  · intro h
    have hmem : n ∈ allowed_properties facades := by simpa using h
    have hkeys : n ∈ (possible_properties_dict facades).map (fun p => p.1) :=
      (List.mem_filter.mp hmem).1
    exact (mem_dict_keys_iff _ _).mp hkeys
  · intro h
    have hkeys : n ∈ (possible_properties_dict facades).map (fun p => p.1) :=
      (mem_dict_keys_iff _ _).mpr h
    have hmem : n ∈ allowed_properties facades :=
      List.mem_filter.mpr ⟨hkeys, by simpa using hf⟩
    simpa using hmem

theorem validate_property_value_codes (param : ResourceAgentParameter)
    (n v : String) (sev : Severity × Option String) :
    ∀ r ∈ validate_property_value param n v sev,
      r.msg.code = "INVALID_OPTION_VALUE" := by
  unfold validate_property_value
  split <;> simp [mkReport, Msg.code]

theorem validate_value_entry_codes (ppd : List (String × ResourceAgentParameter))
    (sev : Severity × Option String) (nv : String × String) :
    ∀ r ∈ validate_value_entry ppd sev nv,
      r.msg.code = "INVALID_OPTION_VALUE" := by
  simp only [validate_value_entry]
  by_cases h1 : nv.1 = "stonith-watchdog-timeout"
  · rw [if_pos h1]; simp
  · rw [if_neg h1]
    by_cases h2 : FORBIDDEN_OPTIONS_LIST.contains nv.1 = true
    · rw [if_pos h2]; simp
    · rw [if_neg h2]
      cases hd : dict_get? ppd nv.1 with
      | none => simp [hd]
      | some param => simp only [hd]; exact validate_property_value_codes _ _ _ _

theorem validate_values_codes (ppd : List (String × ResourceAgentParameter))
    (sev : Severity × Option String) (props : List (String × String)) :
    ∀ r ∈ validate_values ppd sev props,
      r.msg.code = "INVALID_OPTION_VALUE" := by
  induction props with
  | nil => simp [validate_values]
  | cons nv rest ih =>
      intro r hr
      rcases List.mem_append.mp hr with h | h
      · exact validate_value_entry_codes _ _ _ r h
      · exact ih r h

theorem swt_policy_codes (st : WatchdogState) (value : String) (force : Bool) :
    ∀ r ∈ _validate_stonith_watchdog_timeout_property st value force,
      r.msg.code = "STONITH_WATCHDOG_TIMEOUT_CANNOT_BE_SET"
      ∨ r.msg.code = "STONITH_WATCHDOG_TIMEOUT_CANNOT_BE_UNSET"
      ∨ r.msg.code = "STONITH_WATCHDOG_TIMEOUT_TOO_SMALL" := by
  unfold _validate_stonith_watchdog_timeout_property
    validate_stonith_watchdog_timeout
  split
  · split
    · split
      · simp [mkReport, Msg.code]
      · split <;> simp [mkReport, Msg.code]
    · split <;> simp [mkReport, Msg.code]
  · split <;> simp [Msg.code]

theorem filter_eq_nil_of_forall (p : ReportItem → Bool) (l : List ReportItem)
    (h : ∀ r ∈ l, ¬ (p r = true)) : l.filter p = [] := by
  induction l with
  | nil => rfl
  | cons a t ih =>
      rw [List.filter_cons, if_neg (h a (by simp))]
      exact ih (fun r hr => h r (by simp [hr]))

theorem filter_io_values (ppd : List (String × ResourceAgentParameter))
    (sev : Severity × Option String) (props : List (String × String)) :
    (validate_values ppd sev props).filter
      (fun r => decide (r.msg.code = "INVALID_OPTIONS")) = [] := by
  apply filter_eq_nil_of_forall
  intro r hr
  have hc := validate_values_codes ppd sev props r hr
  simp [hc]

theorem filter_io_swt_chunk (c : Prop) [Decidable c] (st : WatchdogState)
    (value : String) (force : Bool) :
    ((if c then _validate_stonith_watchdog_timeout_property st value force
      else []).filter (fun r => decide (r.msg.code = "INVALID_OPTIONS"))) =
    [] := by
  by_cases h : c
  · rw [if_pos h]
    apply filter_eq_nil_of_forall
    intro r hr
    rcases swt_policy_codes st value force r hr with hc | hc | hc <;> simp [hc]
  · rw [if_neg h]; rfl

/-- C2: the INVALID_OPTIONS reports of a set validation are exactly: one
forceable report listing (sorted) the proposed names that are neither in
the merged schema nor forbidden, followed by one non-forceable report
listing (sorted) the proposed names in the forbidden set — the latter
independent of schema membership — each report absent when its name
subset is empty, and no other report of that code is emitted. -/
theorem C2_invalid_options_reports :
    ∀ (facades : List ResourceAgentFacade) (set_id : String)
      (st : WatchdogState) (props : List (String × String)) (force : Bool),
    ((validate_set_cluster_properties facades set_id st props
        force).report_list.filter
      (fun r => r.msg.code = "INVALID_OPTIONS")) =
    (let names := props.map (fun nv => nv.1)
     let unknownOther := names.filter (fun n =>
       !(dict_get? (possible_properties_dict facades) n).isSome &&
       !FORBIDDEN_OPTIONS_LIST.contains n)
     let unknownForbidden := names.filter
       (fun n => FORBIDDEN_OPTIONS_LIST.contains n)
     (if unknownOther.isEmpty then []
      else [mkReport (get_severity FORCE force)
             (Msg.invalidOptions (pySorted unknownOther)
               (pySorted (allowed_properties facades)) "cluster property" [])])
     ++
     (if unknownForbidden.isEmpty then []
      else [⟨Severity.error, none,
             Msg.invalidOptions (pySorted unknownForbidden)
               (pySorted (allowed_properties facades)) "cluster property"
               []⟩])) := by
  intro facades set_id st props force
  have hpt : ∀ n ∈ props.map (fun nv => nv.1),
      (!(allowed_properties facades).contains n &&
        !FORBIDDEN_OPTIONS_LIST.contains n) =
      (!(dict_get? (possible_properties_dict facades) n).isSome &&
        !FORBIDDEN_OPTIONS_LIST.contains n) := by
    intro n _
    by_cases hf : FORBIDDEN_OPTIONS_LIST.contains n = true
    · have hm : n ∈ FORBIDDEN_OPTIONS_LIST := by simpa using hf
      simp [hm]
    · rw [allowed_contains_eq facades n hf]
  simp only [validate_set_cluster_properties, names_in_validate,
    List.filter_append]
  rw [filter_io_values, filter_io_swt_chunk, List.append_nil,
    List.append_nil, List.filter_congr hpt]
  congr 1
  · by_cases hc : ((props.map (fun nv => nv.1)).filter (fun n =>
        !(dict_get? (possible_properties_dict facades) n).isSome &&
        !FORBIDDEN_OPTIONS_LIST.contains n)).isEmpty = true
    · rw [if_pos hc]; rfl
    · rw [if_neg hc]; simp [mkReport, Msg.code]
  · by_cases hc : ((props.map (fun nv => nv.1)).filter
        (fun n => FORBIDDEN_OPTIONS_LIST.contains n)).isEmpty = true
    · rw [if_pos hc]; rfl
    · rw [if_neg hc]; simp [Msg.code]

theorem set_swt_only (st : WatchdogState) (v : String) (force : Bool) :
    (validate_set_cluster_properties fixture_facade_list "property-set-id" st
      [("stonith-watchdog-timeout", v)] force).report_list =
    _validate_stonith_watchdog_timeout_property st v force := by
  simp +decide [validate_set_cluster_properties, names_in_validate,
    validate_values, validate_value_entry]

/-- C3: with sbd enabled and no devices and a local watchdog timeout L,
a proposed stonith-watchdog-timeout parsing to 0 yields exactly one
forceable cannot-be-unset error with reason sbd_set_up_without_devices; a
value parsing to n with 0 < n < L yields exactly one forceable too-small
error carrying L and the entered value; a value parsing to n with
0 < n and L ≤ n yields no report (the first table row, target zero,
takes precedence over the last row). -/
theorem C3_watchdog_enabled_without_devices :
    ∀ (L : Nat) (v : String) (force : Bool) (n : Nat),
    (timeout_to_seconds v = some 0 →
      (validate_set_cluster_properties fixture_facade_list "property-set-id"
        ⟨true, [], L⟩ [("stonith-watchdog-timeout", v)] force).report_list =
      [mkReport (get_severity FORCE force)
        (Msg.stonithWatchdogTimeoutCannotBeUnset "sbd_set_up_without_devices")])
    ∧ (timeout_to_seconds v = some n → 0 < n → n < L →
      (validate_set_cluster_properties fixture_facade_list "property-set-id"
        ⟨true, [], L⟩ [("stonith-watchdog-timeout", v)] force).report_list =
      [mkReport (get_severity FORCE force)
        (Msg.stonithWatchdogTimeoutTooSmall L v)])
    ∧ (timeout_to_seconds v = some n → 0 < n → L ≤ n →
      (validate_set_cluster_properties fixture_facade_list "property-set-id"
        ⟨true, [], L⟩ [("stonith-watchdog-timeout", v)] force).report_list =
      []) := by
  intro L v force n
  refine ⟨?_, ?_, ?_⟩
  · intro h
    rw [set_swt_only]
    have hne : v ≠ "" := by
      intro he
      rw [he, show timeout_to_seconds "" = none from by decide] at h
      exact Option.noConfusion h
    have hv : swt_target_value v = 0 := by simp [swt_target_value, hne, h]
    simp [_validate_stonith_watchdog_timeout_property,
      validate_stonith_watchdog_timeout, hv]
  · intro h hpos hlt
    rw [set_swt_only]
    have hne : v ≠ "" := by
      intro he
      rw [he, show timeout_to_seconds "" = none from by decide] at h
      exact Option.noConfusion h
    have hv : swt_target_value v = Int.ofNat n := by
      simp [swt_target_value, hne, h]
    have hnz : ¬ (n = 0) := Nat.pos_iff_ne_zero.mp hpos
    simp [_validate_stonith_watchdog_timeout_property,
      validate_stonith_watchdog_timeout, hv, hnz, hlt]
  · intro h hpos hle
    rw [set_swt_only]
    have hne : v ≠ "" := by
      intro he
      rw [he, show timeout_to_seconds "" = none from by decide] at h
      exact Option.noConfusion h
    have hv : swt_target_value v = Int.ofNat n := by
      simp [swt_target_value, hne, h]
    have hnz : ¬ (n = 0) := Nat.pos_iff_ne_zero.mp hpos
    have hnlt : ¬ (n < L) := not_lt.mpr hle
    simp [_validate_stonith_watchdog_timeout_property,
      validate_stonith_watchdog_timeout, hv, hnz, hnlt]

/-- Witness for C3 at the test fixture: local timeout 10, targets 0, 9
and 15 produce the cannot-be-unset error, the too-small error carrying
10 and the entered value, and no report, respectively. -/
theorem C3_watchdog_enabled_without_devices_witness :
    ((validate_set_cluster_properties fixture_facade_list "property-set-id"
        ⟨true, [], 10⟩ [("stonith-watchdog-timeout", "0")] false).report_list =
      [mkReport (get_severity FORCE false)
        (Msg.stonithWatchdogTimeoutCannotBeUnset "sbd_set_up_without_devices")])
    ∧ ((validate_set_cluster_properties fixture_facade_list "property-set-id"
        ⟨true, [], 10⟩ [("stonith-watchdog-timeout", "9")] false).report_list =
      [mkReport (get_severity FORCE false)
        (Msg.stonithWatchdogTimeoutTooSmall 10 "9")])
    ∧ ((validate_set_cluster_properties fixture_facade_list "property-set-id"
        ⟨true, [], 10⟩ [("stonith-watchdog-timeout", "15")] false).report_list =
      []) :=
  ⟨(C3_watchdog_enabled_without_devices 10 "0" false 0).1 (by decide),
   (C3_watchdog_enabled_without_devices 10 "9" false 9).2.1 (by decide)
     (by decide) (by decide),
   (C3_watchdog_enabled_without_devices 10 "15" false 15).2.2 (by decide)
     (by decide) (by decide)⟩

/-- Counterexample to C4 as stated: with sbd disabled, proposing
stonith-watchdog-timeout 5 yields the cannot-be-set error with reason
sbd_not_set_up but with NO force code (the claim asserts the force code
is set), and the report stays an Error with force=true (the claim asserts
force=true downgrades it to Warning). -/
theorem C4_counterexample :
    (validate_set_cluster_properties fixture_facade_list "property-set-id"
      ⟨false, [], 10⟩ [("stonith-watchdog-timeout", "5")] false).report_list =
      [⟨Severity.error, none,
        Msg.stonithWatchdogTimeoutCannotBeSet "sbd_not_set_up"⟩]
    ∧ (validate_set_cluster_properties fixture_facade_list "property-set-id"
      ⟨false, [], 10⟩ [("stonith-watchdog-timeout", "5")] true).report_list =
      [⟨Severity.error, none,
        Msg.stonithWatchdogTimeoutCannotBeSet "sbd_not_set_up"⟩] := by
  constructor <;> decide

/-- C4 as amended: with sbd disabled, a proposed stonith-watchdog-timeout
parsing to 0 yields no watchdog report, and any other value yields
exactly one NON-forceable cannot-be-set error with reason sbd_not_set_up
(no force code, so force=true does not downgrade it). -/
theorem C4_sbd_disabled_amended :
    ∀ (st : WatchdogState) (v : String) (force : Bool),
    st.is_sbd_enabled = false →
    ((swt_target_value v = 0 →
      (validate_set_cluster_properties fixture_facade_list "property-set-id"
        st [("stonith-watchdog-timeout", v)] force).report_list = [])
    ∧ (swt_target_value v ≠ 0 →
      (validate_set_cluster_properties fixture_facade_list "property-set-id"
        st [("stonith-watchdog-timeout", v)] force).report_list =
      [⟨Severity.error, none,
        Msg.stonithWatchdogTimeoutCannotBeSet "sbd_not_set_up"⟩])) := by
  intro st v force he
  constructor <;> intro hv <;> rw [set_swt_only] <;>
    simp [_validate_stonith_watchdog_timeout_property, he, hv]

/-- Witness for the amended C4: sbd disabled, target 0 gives no report;
target 5 forced still gives the non-forceable error. -/
theorem C4_sbd_disabled_amended_witness :
    ((validate_set_cluster_properties fixture_facade_list "property-set-id"
      (fixture_watchdog_state false false)
      [("stonith-watchdog-timeout", "0")] false).report_list = [])
    ∧ ((validate_set_cluster_properties fixture_facade_list "property-set-id"
      (fixture_watchdog_state false false)
      [("stonith-watchdog-timeout", "5")] true).report_list =
      [⟨Severity.error, none,
        Msg.stonithWatchdogTimeoutCannotBeSet "sbd_not_set_up"⟩]) :=
  ⟨(C4_sbd_disabled_amended (fixture_watchdog_state false false) "0" false
      (by decide)).1 (by decide),
   (C4_sbd_disabled_amended (fixture_watchdog_state false false) "5" true
      (by decide)).2 (by decide)⟩

/-- C7: with sbd enabled and no devices, a non-numeric (non-empty)
stonith-watchdog-timeout target is treated as too small rather than a
distinct type error: the single report is the forceable too-small error
carrying the local timeout and the entered string verbatim. -/
theorem C7_non_numeric_is_too_small :
    ∀ (L : Nat) (v : String) (force : Bool),
    timeout_to_seconds v = none → v ≠ "" →
    (validate_set_cluster_properties fixture_facade_list "property-set-id"
      ⟨true, [], L⟩ [("stonith-watchdog-timeout", v)] force).report_list =
    [mkReport (get_severity FORCE force)
      (Msg.stonithWatchdogTimeoutTooSmall L v)] := by
  intro L v force h hne
  rw [set_swt_only]
  have hv : swt_target_value v = -1 := by simp [swt_target_value, hne, h]
  have hneg : ¬ ((-1 : Int) = 0) := by decide
  have hlt : (-1 : Int) < (L : Int) := by omega
  simp [_validate_stonith_watchdog_timeout_property,
    validate_stonith_watchdog_timeout, hv, hneg, hlt]

/-- Witness for C7: the literal target "invalid" with local timeout 10
yields the forceable too-small report carrying 10 and "invalid". -/
theorem C7_non_numeric_is_too_small_witness :
    (validate_set_cluster_properties fixture_facade_list "property-set-id"
      ⟨true, [], 10⟩ [("stonith-watchdog-timeout", "invalid")]
      false).report_list =
    [mkReport (get_severity FORCE false)
      (Msg.stonithWatchdogTimeoutTooSmall 10 "invalid")] :=
  C7_non_numeric_is_too_small 10 "invalid" false (by decide) (by decide)

theorem mem_insertSorted {x y : String} {l : List String} :
    x ∈ insertSorted y l ↔ x = y ∨ x ∈ l := by
  induction l with
  | nil => simp [insertSorted]
  | cons a t ih =>
      simp only [insertSorted]
      split
      · simp [List.mem_cons]
      · simp only [List.mem_cons, ih]
        tauto

theorem mem_pySorted {x : String} {l : List String} (h : x ∈ l) :
    x ∈ pySorted l := by
  induction l with
  | nil => cases h
  | cons a t ih =>
      simp only [pySorted, List.foldr_cons]
      rcases List.mem_cons.mp h with rfl | h2
      · exact mem_insertSorted.mpr (Or.inl rfl)
      · exact mem_insertSorted.mpr (Or.inr (by simpa [pySorted] using ih h2))

theorem msg_ne_value_of_code {m : Msg}
    (h : ¬ (m.code = "INVALID_OPTION_VALUE")) :
    ∀ name value av ce fc, m ≠ Msg.invalidOptionValue name value av ce fc := by
  intro name value av ce fc he
  exact h (by rw [he]; rfl)

theorem names_in_codes (allowed banned : List String) (t : String)
    (sev : Severity × Option String) (names : List String) :
    ∀ r ∈ names_in_validate allowed banned t sev names,
      r.msg.code = "INVALID_OPTIONS" := by
  intro r hr
  simp only [names_in_validate] at hr
  rcases List.mem_append.mp hr with h | h
  · revert h; split
    · intro h; cases h
    · intro h; rw [List.mem_singleton] at h; subst h; rfl
  · revert h; split
    · intro h; cases h
    · intro h; rw [List.mem_singleton] at h; subst h; rfl

theorem validate_property_value_shape (param : ResourceAgentParameter)
    (n v : String) (sev : Severity × Option String) :
    ∀ r ∈ validate_property_value param n v sev,
      ∃ av, r.msg = Msg.invalidOptionValue n v av false none := by
  unfold validate_property_value
  split <;> simp [mkReport]

theorem value_entry_not_forbidden (ppd : List (String × ResourceAgentParameter))
    (sev : Severity × Option String) (nv : String × String) (name : String)
    (hf : name ∈ FORBIDDEN_OPTIONS_LIST) :
    ∀ r ∈ validate_value_entry ppd sev nv,
      ∀ value av ce fc, r.msg ≠ Msg.invalidOptionValue name value av ce fc := by
  simp only [validate_value_entry]
  by_cases h1 : nv.1 = "stonith-watchdog-timeout"
  · rw [if_pos h1]; simp
  · rw [if_neg h1]
    by_cases h2 : FORBIDDEN_OPTIONS_LIST.contains nv.1 = true
    · rw [if_pos h2]; simp
    · rw [if_neg h2]
      cases hd : dict_get? ppd nv.1 with
      | none => simp [hd]
      | some param =>
          simp only [hd]
          intro r hr value av ce fc heq
          rcases validate_property_value_shape param nv.1 nv.2 sev r hr with
            ⟨av', hmsg⟩
          rw [hmsg] at heq
          cases heq
          exact h2 (by simpa using hf)

theorem values_not_forbidden (ppd : List (String × ResourceAgentParameter))
    (sev : Severity × Option String) (props : List (String × String))
    (name : String) (hf : name ∈ FORBIDDEN_OPTIONS_LIST) :
    ∀ r ∈ validate_values ppd sev props,
      ∀ value av ce fc, r.msg ≠ Msg.invalidOptionValue name value av ce fc := by
  induction props with
  | nil => simp [validate_values]
  | cons nv rest ih =>
      intro r hr
      rcases List.mem_append.mp hr with h | h
      · exact value_entry_not_forbidden ppd sev nv name hf r h
      · exact ih r h

/-- Counterexample to C5 as stated: in the test fixture schema the
forbidden name have-watchdog is a schema member yet is NOT in the
derived allowed-names list, and proposing have-watchdog=100 (an invalid
value for its boolean type) yields only the non-forceable
INVALID_OPTIONS report — no INVALID_OPTION_VALUE report, so the
forbidden name is not value-validated. -/
theorem C5_counterexample :
    "have-watchdog" ∈ (possible_properties_dict fixture_facade_list).map
      (fun p => p.1)
    ∧ "have-watchdog" ∉ allowed_properties fixture_facade_list
    ∧ (validate_set_cluster_properties fixture_facade_list "property-set-id"
        ⟨false, [], 10⟩ [("have-watchdog", "100")] false).report_list =
      [⟨Severity.error, none,
        Msg.invalidOptions ["have-watchdog"] ALLOWED_PROPERTIES
          "cluster property" []⟩] := by
  refine ⟨by decide, by decide, by decide⟩

/-- C5 as amended: the derived allowed-names list is the schema keys
minus the forbidden set — a forbidden name is never in it — and a
forbidden name is never value-validated: no INVALID_OPTION_VALUE report
for a forbidden name is ever emitted by the set validator. -/
theorem C5_forbidden_excluded_amended :
    ∀ (facades : List ResourceAgentFacade) (set_id : String)
      (st : WatchdogState) (props : List (String × String)) (force : Bool)
      (name : String),
    name ∈ FORBIDDEN_OPTIONS_LIST →
    (name ∉ allowed_properties facades
    ∧ ∀ r ∈ (validate_set_cluster_properties facades set_id st props
        force).report_list,
      ∀ value av ce fc,
        r.msg ≠ Msg.invalidOptionValue name value av ce fc) := by
  intro facades set_id st props force name hf
  constructor
  · intro hmem
    have hflt := (List.mem_filter.mp hmem).2
    have hc : FORBIDDEN_OPTIONS_LIST.contains name = true := by simpa using hf
    simp [hc] at hflt
    exact hflt hf
  · intro r hr value av ce fc
    simp only [validate_set_cluster_properties] at hr
    rcases List.mem_append.mp hr with hr1 | hr2
    · rcases List.mem_append.mp hr1 with hrni | hrvv
      · exact msg_ne_value_of_code
          (by rw [names_in_codes _ _ _ _ _ r hrni]; decide) _ _ _ _ _
      · exact values_not_forbidden _ _ _ name hf r hrvv _ _ _ _
    · split at hr2
      · exact msg_ne_value_of_code
          (by rcases swt_policy_codes _ _ _ r hr2 with hc | hc | hc <;>
            rw [hc] <;> decide) _ _ _ _ _
      · cases hr2

/-- Witness for the amended C5: for the fixture schema, have-watchdog is
forbidden and absent from the allowed names, and the single report of
proposing have-watchdog=100 is not an INVALID_OPTION_VALUE report for
it. -/
theorem C5_forbidden_excluded_amended_witness :
    "have-watchdog" ∉ allowed_properties fixture_facade_list
    ∧ (⟨Severity.error, none,
        Msg.invalidOptions ["have-watchdog"] ALLOWED_PROPERTIES
          "cluster property" []⟩ : ReportItem).msg ≠
      Msg.invalidOptionValue "have-watchdog" "100"
        (AllowedValues.text "boolean value") false none :=
  have h := C5_forbidden_excluded_amended fixture_facade_list
    "property-set-id" ⟨false, [], 10⟩ [("have-watchdog", "100")] false
    "have-watchdog" (by decide)
  ⟨h.1, h.2 _ (by decide) "100" (AllowedValues.text "boolean value")
    false none⟩

theorem filter_code_chunk_ite (c : Prop) [Decidable c]
    (sev : Severity × Option String) (m : Msg) (code' : String)
    (h : ¬ (m.code = code')) :
    ((if c then [mkReport sev m] else []).filter
      (fun x => decide (x.msg.code = code'))) = [] := by
  by_cases hc : c
  · rw [if_pos hc, List.filter_cons, if_neg (by simpa [mkReport] using h)]
    rfl
  · rw [if_neg hc]; rfl

theorem filter_code_chunk_ite' (c : Prop) [Decidable c]
    (sev : Severity × Option String) (m : Msg) (code' : String)
    (h : ¬ (m.code = code')) :
    ((if c then [] else [mkReport sev m]).filter
      (fun x => decide (x.msg.code = code'))) = [] := by
  by_cases hc : c
  · rw [if_pos hc]; rfl
  · rw [if_neg hc, List.filter_cons, if_neg (by simpa [mkReport] using h)]
    rfl

theorem filter_swt_chunk_ne (c : Prop) [Decidable c] (st : WatchdogState)
    (value : String) (force : Bool) (code' : String)
    (h1 : ¬ ("STONITH_WATCHDOG_TIMEOUT_CANNOT_BE_SET" = code'))
    (h2 : ¬ ("STONITH_WATCHDOG_TIMEOUT_CANNOT_BE_UNSET" = code'))
    (h3 : ¬ ("STONITH_WATCHDOG_TIMEOUT_TOO_SMALL" = code')) :
    ((if c then _validate_stonith_watchdog_timeout_property st value force
      else []).filter (fun r => decide (r.msg.code = code'))) = [] := by
  by_cases h : c
  · rw [if_pos h]
    apply filter_eq_nil_of_forall
    intro r hr
    rcases swt_policy_codes st value force r hr with hc | hc | hc <;>
      simp [hc, h1, h2, h3]
  · rw [if_neg h]; rfl

/-- C6: whenever a removal request contains a forbidden name, the remove
validator emits exactly one CANNOT_DO_ACTION_WITH_FORBIDDEN_OPTIONS
report: action remove, no force code (so it stays an Error for every
force flag), listing the requested forbidden names (sorted) and the full
forbidden set; and a requested forbidden name that is not configured
additionally appears in the not-in-the-container report, which is also
emitted. -/
theorem C6_remove_forbidden_nonforceable :
    ∀ (configured : List String) (set_id : String) (st : WatchdogState)
      (names : List String) (force : Bool),
    names.filter (fun n => FORBIDDEN_OPTIONS_LIST.contains n) ≠ [] →
    (((validate_remove_cluster_properties configured set_id st names
        force).report_list.filter
      (fun r => r.msg.code = "CANNOT_DO_ACTION_WITH_FORBIDDEN_OPTIONS")) =
      [⟨Severity.error, none,
        Msg.cannotDoActionWithForbiddenOptions "remove"
          (pySorted (names.filter
            (fun n => FORBIDDEN_OPTIONS_LIST.contains n)))
          FORBIDDEN_OPTIONS_LIST "cluster property"⟩]
    ∧ ∀ n, n ∈ names → ¬ (configured.contains n = true) →
        (mkReport (get_severity FORCE force)
          (Msg.addRemoveCannotRemoveItemsNotInTheContainer
            ADD_REMOVE_CONTAINER_TYPE_PROPERTY_SET
            ADD_REMOVE_ITEM_TYPE_PROPERTY set_id
            (pySorted (names.filter (fun m => !configured.contains m)))))
          ∈ (validate_remove_cluster_properties configured set_id st names
            force).report_list
        ∧ n ∈ pySorted (names.filter (fun m => !configured.contains m))) := by
  intro configured set_id st names force h
  have hne : ¬ ((names.filter
      (fun n => FORBIDDEN_OPTIONS_LIST.contains n)).isEmpty = true) := by
    simpa [List.isEmpty_iff] using h
  constructor
  · simp only [validate_remove_cluster_properties, List.filter_append]
    rw [filter_code_chunk_ite _ _ _ _ (by simp [Msg.code]),
      filter_code_chunk_ite' _ _ _ _ (by simp [Msg.code]),
      filter_swt_chunk_ne _ _ _ _ _ (by decide) (by decide) (by decide),
      if_neg hne]
    simp [Msg.code]
  · intro n hn hnc
    have hmem' : n ∈ names.filter (fun m => !configured.contains m) :=
      List.mem_filter.mpr ⟨hn, by simpa using hnc⟩
    have hfil_ne : ¬ ((names.filter
        (fun m => !configured.contains m)).isEmpty = true) := by
      rw [List.isEmpty_iff]
      intro hempty
      rw [hempty] at hmem'
      cases hmem'
    refine ⟨?_, mem_pySorted hmem'⟩
    simp only [validate_remove_cluster_properties]
    apply List.mem_append.mpr; left
    apply List.mem_append.mpr; left
    apply List.mem_append.mpr; right
    rw [if_neg hfil_ne]
    simp

/-- Witness for C6 at the test fixture: removing the three forbidden
names cluster-name, dc-version and have-watchdog (none configured)
yields the single non-forceable forbidden-options report, and
cluster-name also appears in the emitted not-in-the-container report. -/
theorem C6_remove_forbidden_nonforceable_witness :
    (((validate_remove_cluster_properties
        ["a", "b", "c", "stonith-watchdog-timeout"] "property-set-id"
        (fixture_watchdog_state false false)
        ["cluster-name", "dc-version", "have-watchdog"]
        false).report_list.filter
      (fun r => r.msg.code = "CANNOT_DO_ACTION_WITH_FORBIDDEN_OPTIONS")) =
      [⟨Severity.error, none,
        Msg.cannotDoActionWithForbiddenOptions "remove"
          (pySorted (["cluster-name", "dc-version", "have-watchdog"].filter
            (fun n => FORBIDDEN_OPTIONS_LIST.contains n)))
          FORBIDDEN_OPTIONS_LIST "cluster property"⟩])
    ∧ (mkReport (get_severity FORCE false)
        (Msg.addRemoveCannotRemoveItemsNotInTheContainer
          ADD_REMOVE_CONTAINER_TYPE_PROPERTY_SET
          ADD_REMOVE_ITEM_TYPE_PROPERTY "property-set-id"
          (pySorted (["cluster-name", "dc-version", "have-watchdog"].filter
            (fun m =>
              !(["a", "b", "c",
                 "stonith-watchdog-timeout"].contains m))))))
        ∈ (validate_remove_cluster_properties
          ["a", "b", "c", "stonith-watchdog-timeout"] "property-set-id"
          (fixture_watchdog_state false false)
          ["cluster-name", "dc-version", "have-watchdog"]
          false).report_list
    ∧ "cluster-name" ∈
        pySorted (["cluster-name", "dc-version", "have-watchdog"].filter
          (fun m =>
            !(["a", "b", "c", "stonith-watchdog-timeout"].contains m))) :=
  have h := C6_remove_forbidden_nonforceable
    ["a", "b", "c", "stonith-watchdog-timeout"] "property-set-id"
    (fixture_watchdog_state false false)
    ["cluster-name", "dc-version", "have-watchdog"] false (by decide)
  ⟨h.1, (h.2 "cluster-name" (by decide) (by decide)).1,
    (h.2 "cluster-name" (by decide) (by decide)).2⟩

theorem join_with_data_mem (sep : String) (xs : List String) (x : String)
    (h : x ∈ xs) : x.data <:+: (join_with sep xs).data := by
  induction xs with
  | nil => cases h
  | cons a t ih =>
      rcases List.mem_cons.mp h with rfl | h2
      · cases t with
        | nil => exact ⟨[], [], by simp [join_with]⟩
        | cons b t2 =>
            refine ⟨[], (sep ++ join_with sep (b :: t2)).data, ?_⟩
            have hj : join_with sep (x :: b :: t2) =
                x ++ sep ++ join_with sep (b :: t2) := rfl
            rw [hj, String.data_append, String.data_append]
            simp [List.append_assoc]
      · cases t with
        | nil => cases h2
        | cons b t2 =>
            obtain ⟨s, u, hs⟩ := ih h2
            refine ⟨(a ++ sep).data ++ s, u, ?_⟩
            have hj : join_with sep (a :: b :: t2) =
                a ++ sep ++ join_with sep (b :: t2) := rfl
            rw [hj, String.data_append, String.data_append, ← hs,
              String.data_append]
            simp [List.append_assoc]

theorem format_list_contains (ids : List String) (x : String) (h : x ∈ ids) :
    (SQ ++ x ++ SQ).data <:+:
      ("Duplicate constraints: " ++ format_list ids).data := by
  have h1 : (SQ ++ x ++ SQ) ∈ ids.map (fun s => SQ ++ s ++ SQ) :=
    List.mem_map.mpr ⟨x, h, rfl⟩
  have h2 : (SQ ++ x ++ SQ) ∈ pySorted (ids.map (fun s => SQ ++ s ++ SQ)) :=
    mem_pySorted h1
  obtain ⟨s, t, hs⟩ := join_with_data_mem ", " _ _ h2
  refine ⟨("Duplicate constraints: ").data ++ s, t, ?_⟩
  have hf : format_list ids =
      join_with ", " (pySorted (ids.map (fun s => SQ ++ s ++ SQ))) := rfl
  rw [hf]
  conv_rhs => rw [String.data_append, ← hs]
  simp [String.data_append, List.append_assoc]

/-- C9: when the constraint-configuration fetch fails with a LibraryError,
the preprocessor returns the original duplicate-constraints diagnostic
unchanged (it does not drop it, and being a total function, no exception
escapes), emits exactly the failure events — the failure output when
non-empty, the embedded report items processed with exit_on_error=false
when present, then a fallback stderr line — and the fallback line
contains every original constraint identifier (quoted) as a substring. -/
theorem C9_fetch_failure_best_effort :
    ∀ (e : LibraryError) (ids : List String) (sev : Severity),
    (report_item_preprocessor (Except.error e) none
        ⟨sev, CliReportMsg.duplicateConstraintsExist ids⟩) =
      (fetch_failure_events e ids,
       some ⟨sev, CliReportMsg.duplicateConstraintsExist ids⟩, none, 1)
    ∧ StderrEvent.line ("Duplicate constraints: " ++ format_list ids) ∈
        fetch_failure_events e ids
    ∧ (e.args ≠ [] →
        StderrEvent.libraryReports e.args false ∈ fetch_failure_events e ids)
    ∧ (∀ s, e.output = some s → s ≠ "" →
        StderrEvent.line s ∈ fetch_failure_events e ids)
    ∧ (∀ cid ∈ ids, (SQ ++ cid ++ SQ).data <:+:
        ("Duplicate constraints: " ++ format_list ids).data) := by
  intro e ids sev
  refine ⟨rfl, ?_, ?_, ?_, ?_⟩
  · simp [fetch_failure_events]
  · intro h
    have hb : ¬ (e.args.isEmpty = true) := by simpa [List.isEmpty_iff] using h
    simp [fetch_failure_events, hb]
  · intro s hs hne
    simp [fetch_failure_events, hs, hne]
  · intro cid hc
    exact format_list_contains ids cid hc

/-- Witness for C9: a failing fetch carrying raw output and one
embedded report item, on a diagnostic with ids c1 and c2. -/
theorem C9_fetch_failure_best_effort_witness :
    (report_item_preprocessor
        (Except.error ⟨some "raw fetch output",
          [⟨Severity.error, CliReportMsg.other "CIB_LOAD_ERROR"⟩]⟩) none
        ⟨Severity.error, CliReportMsg.duplicateConstraintsExist
          ["c1", "c2"]⟩) =
      (fetch_failure_events
        ⟨some "raw fetch output",
          [⟨Severity.error, CliReportMsg.other "CIB_LOAD_ERROR"⟩]⟩
        ["c1", "c2"],
       some ⟨Severity.error, CliReportMsg.duplicateConstraintsExist
         ["c1", "c2"]⟩, none, 1)
    ∧ StderrEvent.libraryReports
        [⟨Severity.error, CliReportMsg.other "CIB_LOAD_ERROR"⟩] false ∈
        fetch_failure_events
          ⟨some "raw fetch output",
            [⟨Severity.error, CliReportMsg.other "CIB_LOAD_ERROR"⟩]⟩
          ["c1", "c2"]
    ∧ StderrEvent.line "raw fetch output" ∈
        fetch_failure_events
          ⟨some "raw fetch output",
            [⟨Severity.error, CliReportMsg.other "CIB_LOAD_ERROR"⟩]⟩
          ["c1", "c2"]
    ∧ (SQ ++ "c1" ++ SQ).data <:+:
        ("Duplicate constraints: " ++ format_list ["c1", "c2"]).data :=
  have h := C9_fetch_failure_best_effort
    ⟨some "raw fetch output",
      [⟨Severity.error, CliReportMsg.other "CIB_LOAD_ERROR"⟩]⟩
    ["c1", "c2"] Severity.error
  ⟨h.1, h.2.2.1 (by decide), h.2.2.2.1 "raw fetch output" rfl (by decide),
   h.2.2.2.2 "c1" (by decide)⟩

/-- Counterexample to C10 as stated: when the fetch fails, its result is
NOT cached (the cache cell stays empty), so two duplicate-constraints
diagnostics in one session trigger the fetch twice, not at most once. -/
theorem C10_counterexample :
    (run_preprocessor (Except.error ⟨none, []⟩) none
      [⟨Severity.error, CliReportMsg.duplicateConstraintsExist ["c1"]⟩,
       ⟨Severity.error, CliReportMsg.duplicateConstraintsExist
         ["c1"]⟩]).2.2 = 2 := by
  rfl

theorem cached_no_fetch (gc : Except LibraryError CibConstraintsDto)
    (dto : CibConstraintsDto) (items : List CliReportItem) :
    (run_preprocessor gc (some dto) items).2.2 = 0 := by
  induction items with
  | nil => rfl
  | cons i rest ih =>
      simp only [run_preprocessor]
      cases hm : i.msg with
      | duplicateConstraintsList => simp [report_item_preprocessor, hm, ih]
      | duplicateConstraintsExist ids =>
          simp [report_item_preprocessor, hm, ih]
      | other c => simp [report_item_preprocessor, hm, ih]

/-- C10 as amended: within one enrichment session whose constraint fetch
succeeds, processing any stream of report items triggers the fetch at
most once — the first fetched result is cached and reused; a FAILED
fetch, however, is not cached and is retried on the next
duplicate-constraints diagnostic (see the counterexample). -/
theorem C10_fetch_cached_amended :
    ∀ (dto : CibConstraintsDto) (items : List CliReportItem),
    (run_preprocessor (Except.ok dto) none items).2.2 ≤ 1 := by
  intro dto items
  induction items with
  | nil => simp [run_preprocessor]
  | cons i rest ih =>
      simp only [run_preprocessor]
      cases hm : i.msg with
      | duplicateConstraintsList =>
          simpa [report_item_preprocessor, hm] using ih
      | duplicateConstraintsExist ids =>
          simp [report_item_preprocessor, hm, cached_no_fetch]
      | other c => simpa [report_item_preprocessor, hm] using ih
